import Mathlib

/-!
# Verification of the Baize skill scripts

Shallow embedding of the two Python skill scripts of this repository:
`src/skills/brave-search/main.py` (web search skill) and
`src/skills/file/main.py` (file-operation skill), together with proofs
settling the specification claims about them.

JSON values exchanged by the skills are modelled by the inductive type
`JVal`.  Python dictionaries are modelled as association lists whose
lookup returns the first matching key, matching the unique-key discipline
of parsed JSON objects.
-/

set_option autoImplicit false

/-- A JSON value: null, boolean, integer, string, array or object. -/
inductive JVal where
  | null
  | bool (b : Bool)
  | num (n : Int)
  | str (s : String)
  | arr (items : List JVal)
  | obj (fields : List (String × JVal))

/-- First-match lookup in a JSON-object field list (Python `dict` access). -/
def dictFind : List (String × JVal) → String → Option JVal
  | [], _ => none
  | (k, v) :: rest, key => if k = key then some v else dictFind rest key

/-- Python `d.get(key, default)` on a dictionary field list. -/
def dictGet (fields : List (String × JVal)) (key : String) (dflt : JVal) : JVal :=
  (dictFind fields key).getD dflt

/-- Python `v.get(key, default)`: succeeds when `v` is a dict, raises
(`AttributeError`) otherwise.  The error string stands for the raised
exception's message. -/
def pyGet (v : JVal) (key : String) (dflt : JVal) : Except String JVal :=
  match v with
  | .obj fields => .ok (dictGet fields key dflt)
  | _ => .error "AttributeError: object has no attribute get"

/-- Field access on a JSON object result (used only to state theorems). -/
def JVal.getField : JVal → String → Option JVal
  | .obj fields, key => dictFind fields key
  | _, _ => none

/-- String field access with empty-string fallback (used only to state
theorems and counterexamples). -/
def getStrField (v : JVal) (key : String) : String :=
  match v.getField key with
  | some (.str s) => s
  | _ => ""

/-- Python truthiness of a JSON value (`if not x`). -/
def JVal.isTruthy : JVal → Bool
  | .null => false
  | .bool b => b
  | .num n => n != 0
  | .str s => !s.isEmpty
  | .arr items => !items.isEmpty
  | .obj fields => !fields.isEmpty

/-- Python `str(x)` as far as the claims need it: exact on `None`,
booleans, integers and strings; container rendering is abbreviated
(no claim depends on formatting a container). -/
def pyStr : JVal → String
  | .null => "None"
  | .bool true => "True"
  | .bool false => "False"
  | .num n => toString n
  | .str s => s
  | .arr _ => "<list>"
  | .obj _ => "<dict>"

/-- The failure envelope `{'success': False, 'error': msg}` printed by
`output_error` in both skills. -/
def errEnv (msg : String) : JVal :=
  .obj [("success", .bool false), ("error", .str msg)]

/-- The value is a JSON object. -/
def JVal.isObj : JVal → Bool
  | .obj _ => true
  | _ => false

theorem isTruthy_str (s : String) : (JVal.str s).isTruthy = !s.isEmpty := rfl

theorem isEmpty_empty : ("" : String).isEmpty = true := rfl

theorem isEmpty_false_of_ne {s : String} (h : s ≠ "") : s.isEmpty = false := by
  cases hE : s.isEmpty with
  | false => rfl
  | true => exact absurd ((String.isEmpty_iff s).mp hE) h

namespace BraveSearch

/-!
## Search skill (`src/skills/brave-search/main.py`)

The single outbound HTTP GET of `search_brave` is abstracted into an
oracle `HttpResponse` passed to the function: a 2xx response whose body
already parsed as JSON, a non-2xx response with its status code and raw
error body (`urllib.error.HTTPError`), or any other failure of the
request / body decoding (network error, malformed JSON body), carried as
the raised exception's message.  The request URL built from `query`,
`count` and `offset` is part of the abstracted call.
-/

/-- Outcome of the one HTTP GET performed by the search skill. -/
inductive HttpResponse where
  | success (body : JVal)
  | httpError (code : Nat) (body : String)
  | otherError (msg : String)

/-- One iteration body of the `for item in web_results` loop:
`item.get(...)` raises unless `item` is a dict. -/
def parseItem (item : JVal) : Except String JVal :=
  match item with
  | .obj fields =>
      .ok (.obj [("title", dictGet fields "title" (.str "")),
                 ("url", dictGet fields "url" (.str "")),
                 ("description", dictGet fields "description" (.str ""))])
  | _ => .error "AttributeError: object has no attribute get"

/-- The `for item in web_results` loop of `parse_results`, appending the
parsed records in order. -/
def parseLoop : List JVal → Except String (List JVal)
  | [] => .ok []
  | item :: rest =>
      match parseItem item with
      | .error e => .error e
      | .ok r =>
          match parseLoop rest with
          | .error e => .error e
          | .ok rs => .ok (r :: rs)

/-- `parse_results(json_data)`: reads `json_data.get('web', {}).get('results', [])`
and maps each item to a `{title, url, description}` record.  Iterating a
non-list `results` value is modelled as a raised exception. -/
def parse_results (json_data : JVal) : Except String (List JVal) :=
  match pyGet json_data "web" (.obj []) with
  | .error e => .error e
  | .ok web =>
      match pyGet web "results" (.arr []) with
      | .error e => .error e
      | .ok (.arr items) => parseLoop items
      | .ok _ => .error "TypeError: object is not iterable"

/-- `search_brave`: the HTTP call followed by body parsing.  A non-2xx
response (`HTTPError`) is re-raised as `Exception('API返回错误: {code} - {body}')`;
every other failure propagates as raised. -/
def search_brave (resp : HttpResponse) : Except String (List JVal) :=
  match resp with
  | .success body => parse_results body
  | .httpError code body => .error ("API返回错误: " ++ toString code ++ " - " ++ body)
  | .otherError msg => .error msg

/-- `output_success(data, message)`: the printed success envelope. -/
def output_success (results : List JVal) (message : String) : JVal :=
  .obj [("success", .bool true),
        ("data", .obj [("results", .arr results)]),
        ("message", .str message)]

/-- The specification-side record map: what each well-formed (dict) item
of `web.results` becomes.  On a non-dict item (excluded by the claims'
hypotheses) the value is irrelevant. -/
def parsedItem (item : JVal) : JVal :=
  match item with
  | .obj fields =>
      .obj [("title", dictGet fields "title" (.str "")),
            ("url", dictGet fields "url" (.str "")),
            ("description", dictGet fields "description" (.str ""))]
  | _ => .null

/-- The try-block of `main`: parameter extraction, validation, the search
call and envelope construction.  Returns the printed envelope together
with the process exit code of the non-raising paths; a raised exception
is an `Except.error`.  `baizeParams` is the decoded `BAIZE_PARAMS`
environment variable (absent = `none`), `apiKey` the `BRAVE_API_KEY`
environment variable. -/
def mainTry (baizeParams : Option JVal) (apiKey : Option String)
    (resp : HttpResponse) : Except String (JVal × Nat) :=
  let input_data := baizeParams.getD (.obj [("params", .obj [])])
  match pyGet input_data "params" (.obj []) with
  | .error e => .error e
  | .ok params =>
      match pyGet params "query" .null with
      | .error e => .error e
      | .ok query =>
          match pyGet params "count" (.num 5) with
          | .error e => .error e
          | .ok _count =>
              match pyGet params "offset" (.num 0) with
              | .error e => .error e
              | .ok _offset =>
                  if query.isTruthy = false then
                    -- output_error prints but does not exit: code 0
                    .ok (errEnv "请提供搜索关键词 (query)", 0)
                  else if (apiKey.getD "").isEmpty then
                    .ok (errEnv "未设置 BRAVE_API_KEY 环境变量，请在 .env 文件中添加: BRAVE_API_KEY=your_key", 0)
                  else
                    match search_brave resp with
                    | .error e => .error e
                    | .ok results =>
                        .ok (output_success results
                              ("找到 " ++ toString results.length ++ " 个结果"), 0)

/-- `main` of the search skill: the try-block with its
`except Exception: output_error(str(e)); sys.exit(1)` handler.  The
result is the printed envelope paired with the process exit code. -/
def main (baizeParams : Option JVal) (apiKey : Option String)
    (resp : HttpResponse) : JVal × Nat :=
  match mainTry baizeParams apiKey resp with
  | .ok out => out
  | .error e => (errEnv e, 1)

end BraveSearch

namespace FileSkill

/-!
## File skill (`src/skills/file/main.py`)

The host filesystem is modelled by `FS`: an association list of regular
files (path to decoded text content) and a list of existing directories.
Paths are modelled as lists of components; the skill's path strings are
split on `/` (with empty and `.` components dropped) when a `Path`
object is constructed from them.  Text codecs are abstracted: file
contents are stored as decoded text, byte sizes use the skill's default
UTF-8 encoding, and the `encoding` parameter is carried but does not
change the modelled behaviour (no claim distinguishes encodings).

Each filesystem primitive of `pathlib` used by the skill is modelled
with its failure cases: `mkdir(parents=True, exist_ok=True)` fails on a
path component that is a regular file, `write_text` fails when the
target is a directory or its parent directory is missing, `read_text`
fails on a directory, `unlink` fails on a directory.  Mutations
performed before a failure persist, as they do on a real filesystem.
-/

/-- A filesystem path, as a list of components. -/
abbrev FPath := List String

/-- Split a character list on `/`, accumulating the current component
in reverse. -/
def splitComps : List Char → List Char → List String
  | [], acc => [acc.reverse.asString]
  | c :: rest, acc =>
      if c = '/' then acc.reverse.asString :: splitComps rest []
      else splitComps rest (c :: acc)

/-- `Path(file_path)`: split a path string into components, dropping
empty and `.` components as `pathlib` does. -/
def splitPath (s : String) : FPath :=
  (splitComps s.data []).filter (fun c => c ≠ "" && c ≠ ".")

/-- `path.parent`: drop the last component (the parent of a top-level
name is the current directory, modelled as the empty path). -/
def parentPath (p : FPath) : FPath := p.dropLast

/-- All prefixes of a path, shortest first (including `[]` and `p`). -/
def pathPrefixes (p : FPath) : List FPath :=
  (List.range (p.length + 1)).map (fun i => p.take i)

/-- The modelled filesystem: regular files with their text content, and
the set of existing directories.  The current directory `[]` always
exists. -/
structure FS where
  files : List (FPath × String)
  dirs : List FPath

/-- First-match file lookup. -/
def findFile : List (FPath × String) → FPath → Option String
  | [], _ => none
  | (k, v) :: rest, p => if k = p then some v else findFile rest p

/-- Remove every entry for a path. -/
def removeFile : List (FPath × String) → FPath → List (FPath × String)
  | [], _ => []
  | (k, v) :: rest, p =>
      if k = p then removeFile rest p else (k, v) :: removeFile rest p

/-- Membership in the directory list. -/
def memPath : List FPath → FPath → Bool
  | [], _ => false
  | d :: rest, p => if d = p then true else memPath rest p

/-- The path names a regular file. -/
def FS.isFile (fs : FS) (p : FPath) : Bool := (findFile fs.files p).isSome

/-- The path names a directory (the current directory always exists). -/
def FS.isDir (fs : FS) (p : FPath) : Bool := p.isEmpty || memPath fs.dirs p

/-- `path.exists()`: the path names a file or a directory. -/
def FS.pexists (fs : FS) (p : FPath) : Bool := fs.isFile p || fs.isDir p

/-- `os.mkdir` applied to each prefix in turn, shortest first, skipping
directories that already exist (`exist_ok=True`): fails on a component
that is a regular file, keeping the directories already created. -/
def FS.mkdirSeq (fs : FS) : List FPath → FS × Option String
  | [] => (fs, none)
  | q :: rest =>
      if fs.isFile q then (fs, some "NotADirectoryError")
      else if fs.isDir q then fs.mkdirSeq rest
      else FS.mkdirSeq { fs with dirs := q :: fs.dirs } rest

/-- `path.mkdir(parents=True, exist_ok=True)`. -/
def FS.mkdirParents (fs : FS) (p : FPath) : FS × Option String :=
  fs.mkdirSeq (pathPrefixes p)

/-- `path.write_text(content, encoding=...)`: fails when the path is a
directory or the parent directory is missing; otherwise creates or
truncates the file with the given content. -/
def FS.writeText (fs : FS) (p : FPath) (content : String) : FS × Option String :=
  if fs.isDir p then (fs, some "IsADirectoryError")
  else if !fs.isDir (parentPath p) then (fs, some "FileNotFoundError")
  else ({ fs with files := (p, content) :: removeFile fs.files p }, none)

/-- `path.read_text(encoding=...)`: fails on a directory or a missing
file, returns the stored text otherwise. -/
def FS.readText (fs : FS) (p : FPath) : Except String String :=
  if fs.isDir p then .error "IsADirectoryError"
  else
    match findFile fs.files p with
    | some c => .ok c
    | none => .error "FileNotFoundError"

/-- `path.unlink()`: fails on a directory or a missing file, removes the
file otherwise. -/
def FS.unlink (fs : FS) (p : FPath) : FS × Option String :=
  if fs.isDir p then (fs, some "IsADirectoryError")
  else if fs.isFile p then ({ fs with files := removeFile fs.files p }, none)
  else (fs, some "FileNotFoundError")

/-- `len(content.encode(encoding))`: byte length of the content under
the skill's default UTF-8 encoding (codecs are abstracted; the
`encoding` argument is carried unchanged). -/
def encodeLen (content : String) (_encoding : JVal) : Nat :=
  content.utf8ByteSize

/-- `read_file(file_path, encoding)`: its whole body runs inside
`try/except`, so every failure becomes a `读取文件失败` result except the
explicit existence check.  A non-string path makes `Path(file_path)`
raise inside the try-block. -/
def read_file (fs : FS) (file_path : JVal) (_encoding : JVal) : JVal :=
  match file_path with
  | .str fp =>
      let path := splitPath fp
      if !fs.pexists path then errEnv ("文件不存在: " ++ fp)
      else
        match fs.readText path with
        | .error e => errEnv ("读取文件失败: " ++ e)
        | .ok content =>
            .obj [("success", .bool true),
                  ("data", .obj [("content", .str content),
                                 ("path", .str fp),
                                 ("size", .num content.utf8ByteSize)]),
                  ("message", .str content)]
  | _ => errEnv "读取文件失败: TypeError: invalid path argument"

/-- `write_file(file_path, content, encoding)`: make the parent
directories, then overwrite the file.  Directories created before a
later failure persist; a non-string content makes `write_text` raise
after the mkdir step. -/
def write_file (fs : FS) (file_path : JVal) (content : JVal)
    (encoding : JVal) : FS × JVal :=
  match file_path with
  | .str fp =>
      let path := splitPath fp
      match fs.mkdirParents (parentPath path) with
      | (fs1, some e) => (fs1, errEnv ("写入文件失败: " ++ e))
      | (fs1, none) =>
          match content with
          | .str c =>
              match fs1.writeText path c with
              | (fs2, some e) => (fs2, errEnv ("写入文件失败: " ++ e))
              | (fs2, none) =>
                  (fs2, .obj [("success", .bool true),
                              ("data", .obj [("path", .str fp),
                                             ("size", .num (encodeLen c encoding))]),
                              ("message", .str ("文件已写入: " ++ fp))])
          | _ => (fs1, errEnv "写入文件失败: TypeError: content must be str")
  | _ => (fs, errEnv "写入文件失败: TypeError: invalid path argument")

/-- `create_file(file_path, content, encoding)`: same operations as
`write_file`, with `创建` wording in its messages. -/
def create_file (fs : FS) (file_path : JVal) (content : JVal)
    (encoding : JVal) : FS × JVal :=
  match file_path with
  | .str fp =>
      let path := splitPath fp
      match fs.mkdirParents (parentPath path) with
      | (fs1, some e) => (fs1, errEnv ("创建文件失败: " ++ e))
      | (fs1, none) =>
          match content with
          | .str c =>
              match fs1.writeText path c with
              | (fs2, some e) => (fs2, errEnv ("创建文件失败: " ++ e))
              | (fs2, none) =>
                  (fs2, .obj [("success", .bool true),
                              ("data", .obj [("path", .str fp),
                                             ("size", .num (encodeLen c encoding))]),
                              ("message", .str ("文件已创建: " ++ fp))])
          | _ => (fs1, errEnv "创建文件失败: TypeError: content must be str")
  | _ => (fs, errEnv "创建文件失败: TypeError: invalid path argument")

/-- `delete_file(file_path)`: explicit existence check, then `unlink`. -/
def delete_file (fs : FS) (file_path : JVal) : FS × JVal :=
  match file_path with
  | .str fp =>
      let path := splitPath fp
      if !fs.pexists path then (fs, errEnv ("文件不存在: " ++ fp))
      else
        match fs.unlink path with
        | (fs1, some e) => (fs1, errEnv ("删除文件失败: " ++ e))
        | (fs1, none) =>
            (fs1, .obj [("success", .bool true),
                        ("message", .str ("文件已删除: " ++ fp))])
  | _ => (fs, errEnv "删除文件失败: TypeError: invalid path argument")

/-- `exists_file(file_path)`: always succeeds on a path string. -/
def exists_file (fs : FS) (file_path : JVal) : JVal :=
  match file_path with
  | .str fp =>
      let ex := fs.pexists (splitPath fp)
      .obj [("success", .bool true),
            ("data", .obj [("exists", .bool ex)]),
            ("message", .str ("文件" ++ (if ex then "存在" else "不存在") ++ ": " ++ fp))]
  | _ => errEnv "检查文件失败: TypeError: invalid path argument"

/-- The try-block of the file skill's `main`, starting from the decoded
input object (the `BAIZE_PARAMS` / stdin JSON acquisition is outside
the model): parameter extraction, validation (whose `output_error`
prints and exits with code 1), and the action dispatch, whose result is
printed with exit code 0.  A raised exception is an `Except.error`. -/
def mainTry (input_data : JVal) (fs : FS) : Except String (FS × JVal × Nat) :=
  match pyGet input_data "params" (.obj []) with
  | .error e => .error e
  | .ok params =>
      match pyGet params "action" .null with
      | .error e => .error e
      | .ok actionV =>
          match pyGet params "path" .null with
          | .error e => .error e
          | .ok pathV =>
              match pyGet params "content" (.str "") with
              | .error e => .error e
              | .ok contentV =>
                  match pyGet params "encoding" (.str "utf-8") with
                  | .error e => .error e
                  | .ok encodingV =>
                      if actionV.isTruthy = false then
                        .ok (fs, errEnv "缺少 action 参数", 1)
                      else if pathV.isTruthy = false then
                        .ok (fs, errEnv "缺少 path 参数", 1)
                      else
                        let result : FS × JVal :=
                          match actionV with
                          | .str a =>
                              if a = "read" then (fs, read_file fs pathV encodingV)
                              else if a = "write" then write_file fs pathV contentV encodingV
                              else if a = "create" then create_file fs pathV contentV encodingV
                              else if a = "delete" then delete_file fs pathV
                              else if a = "exists" then (fs, exists_file fs pathV)
                              else (fs, errEnv ("未知操作: " ++ a))
                          | other => (fs, errEnv ("未知操作: " ++ pyStr other))
                        .ok (result.1, result.2, 0)

/-- `main` of the file skill: the try-block with its
`except Exception: output_error(str(e))` handler, where the file
skill's `output_error` prints the failure envelope and exits with
code 1.  The result is the final filesystem, the printed envelope and
the process exit code. -/
def main (input_data : JVal) (fs : FS) : FS × JVal × Nat :=
  match mainTry input_data fs with
  | .ok r => r
  | .error e => (fs, errEnv e, 1)

end FileSkill

/-!
## Theorems for the claims
-/

section SearchClaims

open BraveSearch

theorem parseLoop_ok (items : List JVal) (h : items.all JVal.isObj = true) :
    parseLoop items = .ok (items.map parsedItem) := by
  induction items with
  | nil => rfl
  | cons it rest ih =>
      rw [List.all_cons, Bool.and_eq_true] at h
      obtain ⟨h1, h2⟩ := h
      cases it <;> simp [JVal.isObj] at h1
      simp [parseLoop, parseItem, parsedItem, ih h2]

/-- C1, counterexample to the claim as stated: on a mocked HTTP 403
response with body `forbidden` (query and API key present), the search
skill's process exit code is `1`, not `0` — the non-2xx HTTP-response
path does reach the generic exception handler, because `search_brave`
re-raises the `HTTPError` as a plain `Exception`. -/
theorem claim1_counterexample :
    (BraveSearch.main (some (.obj [("params", .obj [("query", .str "test")])]))
        (some "k") (.httpError 403 "forbidden")).2 = 1 ∧
    ¬ (BraveSearch.main (some (.obj [("params", .obj [("query", .str "test")])]))
        (some "k") (.httpError 403 "forbidden")).2 = 0 :=
  ⟨rfl, by decide⟩

/-- C1, amended: for the search skill, a non-2xx HTTP response yields an
error envelope whose error string contains both the HTTP status code and
the raw error body text, and the process exits with a non-zero status
code on this path as well, because the re-raised exception is caught by
the same generic handler that forces exit 1. -/
theorem claim1_thm (q k : String) (hq : q ≠ "") (hk : k ≠ "")
    (code : Nat) (body : String) :
    BraveSearch.main (some (.obj [("params", .obj [("query", .str q)])])) (some k)
        (.httpError code body)
      = (errEnv ("API返回错误: " ++ toString code ++ " - " ++ body), 1) ∧
    (∃ u v w : String,
        "API返回错误: " ++ toString code ++ " - " ++ body
          = u ++ toString code ++ (v ++ body ++ w)) := by
  constructor
  · unfold BraveSearch.main BraveSearch.mainTry
    simp [pyGet, dictGet, dictFind, JVal.isTruthy, isEmpty_false_of_ne hq,
          isEmpty_false_of_ne hk, search_brave]
  · exact ⟨"API返回错误: ", " - ", "", by simp [String.append_assoc]⟩

/-- C1 witness: the amended theorem at the 403 / `forbidden` input. -/
theorem claim1_witness :
    BraveSearch.main (some (.obj [("params", .obj [("query", .str "test")])]))
        (some "k") (.httpError 403 "forbidden")
      = (errEnv "API返回错误: 403 - forbidden", 1) :=
  (claim1_thm "test" "k" (by decide) (by decide) 403 "forbidden").1

/-- C2: for the search skill, an empty or missing `query` parameter
yields the failure envelope `{'success': False, 'error': <non-empty>}`
with process exit code 0; the result does not depend on the HTTP oracle
(no network call is made), which the universal quantification over
`resp` expresses. -/
theorem claim2_thm (fields : List (String × JVal)) (apiKey : Option String)
    (resp : HttpResponse)
    (h : dictFind fields "query" = none ∨ dictFind fields "query" = some (.str "")) :
    BraveSearch.main (some (.obj [("params", .obj fields)])) apiKey resp
      = (errEnv "请提供搜索关键词 (query)", 0) ∧
    (errEnv "请提供搜索关键词 (query)").getField "success" = some (.bool false) ∧
    (errEnv "请提供搜索关键词 (query)").getField "error" = some (.str "请提供搜索关键词 (query)") ∧
    "请提供搜索关键词 (query)" ≠ "" := by
  refine ⟨?_, rfl, rfl, by decide⟩
  unfold BraveSearch.main BraveSearch.mainTry
  rcases h with h | h <;>
    simp [pyGet, dictGet, dictFind, JVal.isTruthy, h, isEmpty_empty]

/-- C2 witness: a params object with no `query` key, no API key, and an
arbitrary HTTP oracle. -/
theorem claim2_witness :
    BraveSearch.main (some (.obj [("params", .obj [])])) none (.otherError "net down")
      = (errEnv "请提供搜索关键词 (query)", 0) :=
  (claim2_thm [] none (.otherError "net down") (Or.inl rfl)).1

/-- C5: for the search skill, a well-formed HTTP 200 JSON response has
its nested `web.results` list mapped one-to-one (via `parsedItem`, which
takes each of `title`, `url`, `description` with empty-string default)
into the success envelope, whose message is `找到 N 个结果` with `N` the
length of the parsed result list. -/
theorem claim5_thm (q k : String) (hq : q ≠ "") (hk : k ≠ "")
    (body webv : JVal) (items : List JVal)
    (hweb : pyGet body "web" (.obj []) = .ok webv)
    (hres : pyGet webv "results" (.arr []) = .ok (.arr items))
    (hobj : items.all JVal.isObj = true) :
    BraveSearch.main (some (.obj [("params", .obj [("query", .str q)])])) (some k)
        (.success body)
      = (output_success (items.map parsedItem)
          ("找到 " ++ toString (items.map parsedItem).length ++ " 个结果"), 0) := by
  unfold BraveSearch.main BraveSearch.mainTry
  simp only [search_brave, parse_results, hweb, hres]
  simp [pyGet, dictGet, dictFind, JVal.isTruthy, isEmpty_false_of_ne hq,
        isEmpty_false_of_ne hk, parseLoop_ok items hobj, List.length_map]

/-- C5 witness: one well-formed result record; the envelope carries that
single record and the message `找到 1 个结果`. -/
theorem claim5_witness :
    BraveSearch.main (some (.obj [("params", .obj [("query", .str "x")])])) (some "k")
        (.success (.obj [("web", .obj [("results", .arr
          [.obj [("title", .str "A"), ("url", .str "http://a"), ("description", .str "d")]])])]))
      = (output_success
          [.obj [("title", .str "A"), ("url", .str "http://a"), ("description", .str "d")]]
          "找到 1 个结果", 0) :=
  claim5_thm "x" "k" (by decide) (by decide) _ _
    [.obj [("title", .str "A"), ("url", .str "http://a"), ("description", .str "d")]]
    rfl rfl rfl

end SearchClaims

section FileClaims

open FileSkill

theorem findFile_removeFile (l : List (FPath × String)) (p : FPath) :
    findFile (removeFile l p) p = none := by
  induction l with
  | nil => rfl
  | cons kv rest ih =>
      obtain ⟨k, v⟩ := kv
      by_cases hk : k = p
      · simp [removeFile, hk, ih]
      · simp [removeFile, findFile, hk, ih]

/-- C6: for the file skill, `action=exists` always returns a success
envelope whose `data.exists` is the filesystem existence state of the
path; it never yields a failure result. -/
theorem claim6_thm (fs : FS) (fp : String) :
    exists_file fs (.str fp)
      = .obj [("success", .bool true),
              ("data", .obj [("exists", .bool (fs.pexists (splitPath fp)))]),
              ("message", .str ("文件"
                ++ (if fs.pexists (splitPath fp) then "存在" else "不存在")
                ++ ": " ++ fp))] ∧
    (exists_file fs (.str fp)).getField "success" = some (.bool true) ∧
    (exists_file fs (.str fp)).getField "data"
      = some (.obj [("exists", .bool (fs.pexists (splitPath fp)))]) :=
  ⟨rfl, by simp [exists_file, JVal.getField, dictFind],
    by simp [exists_file, JVal.getField, dictFind]⟩

/-- C7: for the file skill, `delete` on a non-existent path returns the
failure envelope; `delete` on an existing regular file succeeds and a
following `exists` on the same path reports `exists = false`. -/
theorem claim7_thm (fs : FS) (fp : String) :
    (fs.pexists (splitPath fp) = false →
        delete_file fs (.str fp) = (fs, errEnv ("文件不存在: " ++ fp))) ∧
    (fs.isFile (splitPath fp) = true → fs.isDir (splitPath fp) = false →
        ((delete_file fs (.str fp)).2).getField "success" = some (.bool true) ∧
        (exists_file ((delete_file fs (.str fp)).1) (.str fp)).getField "data"
          = some (.obj [("exists", .bool false)])) := by
  constructor
  · intro hne
    simp [delete_file, hne]
  · intro hf hd
    have hpe : fs.pexists (splitPath fp) = true := by
      simp [FS.pexists, hf]
    have hd1 : ({ fs with files := removeFile fs.files (splitPath fp) } : FS).isDir
        (splitPath fp) = false := by
      simpa [FS.isDir] using hd
    have hf1 : ({ fs with files := removeFile fs.files (splitPath fp) } : FS).isFile
        (splitPath fp) = false := by
      simp [FS.isFile, findFile_removeFile]
    simp [delete_file, hpe, FS.unlink, hd, hf, exists_file, FS.pexists, hd1, hf1,
          JVal.getField, dictFind]

/-- C7 witness: delete of a missing path fails; delete of an existing
file makes a following `exists` report `false`. -/
theorem claim7_witness :
    delete_file ⟨[], []⟩ (.str "nope") = (⟨[], []⟩, errEnv "文件不存在: nope") ∧
    ((delete_file ⟨[(["f"], "x")], []⟩ (.str "f")).2).getField "success"
      = some (.bool true) ∧
    (exists_file ((delete_file ⟨[(["f"], "x")], []⟩ (.str "f")).1) (.str "f")).getField "data"
      = some (.obj [("exists", .bool false)]) :=
  ⟨(claim7_thm ⟨[], []⟩ "nope").1 rfl,
   ((claim7_thm ⟨[(["f"], "x")], []⟩ "f").2 rfl rfl).1,
   ((claim7_thm ⟨[(["f"], "x")], []⟩ "f").2 rfl rfl).2⟩

/-- C8: for the file skill, `read` on a non-existent path returns the
failure envelope `{'success': False, 'error': <contains the path>}`,
with no exception raised (the function is total and returns a result). -/
theorem claim8_thm (fs : FS) (fp : String) (enc : JVal)
    (h : fs.pexists (splitPath fp) = false) :
    read_file fs (.str fp) enc = errEnv ("文件不存在: " ++ fp) ∧
    (∃ u w : String, "文件不存在: " ++ fp = u ++ fp ++ w) ∧
    (read_file fs (.str fp) enc).getField "success" = some (.bool false) := by
  refine ⟨by simp [read_file, h], ⟨"文件不存在: ", "", by simp⟩, ?_⟩
  simp [read_file, h, errEnv, JVal.getField, dictFind]

/-- C8 witness: reading a missing path on the empty filesystem. -/
theorem claim8_witness :
    read_file ⟨[], []⟩ (.str "nope") (.str "utf-8") = errEnv "文件不存在: nope" :=
  (claim8_thm ⟨[], []⟩ "nope" (.str "utf-8") rfl).1

/-- C9: for the file skill, any action string outside
`{read, write, create, delete, exists}` (with action and path both
non-empty) produces a failure envelope naming the action, and the run
neither raises (it stays on the `Except.ok` path) nor exits non-zero:
the exit code is 0. -/
theorem claim9_thm (fs : FS) (a p : String) (cv ev : JVal)
    (ha : a ≠ "") (hp : p ≠ "")
    (h1 : a ≠ "read") (h2 : a ≠ "write") (h3 : a ≠ "create")
    (h4 : a ≠ "delete") (h5 : a ≠ "exists") :
    FileSkill.main (.obj [("params", .obj [("action", .str a), ("path", .str p),
                                           ("content", cv), ("encoding", ev)])]) fs
      = (fs, errEnv ("未知操作: " ++ a), 0) := by
  unfold FileSkill.main FileSkill.mainTry
  simp [pyGet, dictGet, dictFind, JVal.isTruthy, isEmpty_false_of_ne ha,
        isEmpty_false_of_ne hp, h1, h2, h3, h4, h5]

/-- C9 witness: the action `frobnicate`. -/
theorem claim9_witness :
    FileSkill.main (.obj [("params", .obj [("action", .str "frobnicate"),
                                           ("path", .str "x"),
                                           ("content", .str ""),
                                           ("encoding", .str "utf-8")])]) ⟨[], []⟩
      = (⟨[], []⟩, errEnv "未知操作: frobnicate", 0) :=
  claim9_thm ⟨[], []⟩ "frobnicate" "x" (.str "") (.str "utf-8")
    (by decide) (by decide) (by decide) (by decide) (by decide) (by decide) (by decide)

end FileClaims

section FileClaims2

open FileSkill

/-- C10: for the file skill, the envelope of `delete` never carries a
`data` field (in particular a successful delete has only the success
flag and the message), while every success envelope of `read`, `write`,
`create` and `exists` carries a `data` mapping. -/
theorem claim10_thm :
    (∀ (fs : FS) (pv : JVal), ((delete_file fs pv).2).getField "data" = none) ∧
    (∀ (fs : FS) (pv ev : JVal),
        (read_file fs pv ev).getField "success" = some (.bool true) →
        ∃ d, (read_file fs pv ev).getField "data" = some d) ∧
    (∀ (fs : FS) (pv cv ev : JVal),
        ((write_file fs pv cv ev).2).getField "success" = some (.bool true) →
        ∃ d, ((write_file fs pv cv ev).2).getField "data" = some d) ∧
    (∀ (fs : FS) (pv cv ev : JVal),
        ((create_file fs pv cv ev).2).getField "success" = some (.bool true) →
        ∃ d, ((create_file fs pv cv ev).2).getField "data" = some d) ∧
    (∀ (fs : FS) (pv : JVal),
        (exists_file fs pv).getField "success" = some (.bool true) →
        ∃ d, (exists_file fs pv).getField "data" = some d) := by
  refine ⟨?_, ?_, ?_, ?_, ?_⟩
  · intro fs pv
    cases pv <;> simp [delete_file, errEnv, JVal.getField, dictFind]
    case str fp =>
      by_cases hpe : fs.pexists (splitPath fp) = true
      · rcases hu : fs.unlink (splitPath fp) with ⟨fs1, e1⟩
        cases e1 <;> simp [hpe, hu, errEnv, JVal.getField, dictFind]
      · simp [Bool.eq_false_iff.mpr hpe, errEnv, JVal.getField, dictFind]
  · intro fs pv ev hsucc
    cases pv <;> simp_all [read_file, errEnv, JVal.getField, dictFind]
    case str fp =>
      by_cases hpe : fs.pexists (splitPath fp) = true
      · rcases hr : fs.readText (splitPath fp) with e1 | c
        · simp [read_file, hpe, hr, errEnv, JVal.getField, dictFind] at hsucc
        · simp [read_file, hpe, hr, JVal.getField, dictFind]
      · simp [read_file, Bool.eq_false_iff.mpr hpe, errEnv, JVal.getField, dictFind] at hsucc
  · intro fs pv cv ev hsucc
    cases pv <;> simp_all [write_file, errEnv, JVal.getField, dictFind]
    case str fp =>
      rcases hmk : fs.mkdirParents (parentPath (splitPath fp)) with ⟨fs1, e1⟩
      cases e1 with
      | some e => simp [write_file, hmk, errEnv, JVal.getField, dictFind] at hsucc
      | none =>
          cases cv <;> simp_all [write_file, hmk, errEnv, JVal.getField, dictFind]
          case str c =>
            rcases hwt : fs1.writeText (splitPath fp) c with ⟨fs2, e2⟩
            cases e2 with
            | some e => simp [write_file, hmk, hwt, errEnv, JVal.getField, dictFind] at hsucc
            | none => simp [write_file, hmk, hwt, JVal.getField, dictFind]
  · intro fs pv cv ev hsucc
    cases pv <;> simp_all [create_file, errEnv, JVal.getField, dictFind]
    case str fp =>
      rcases hmk : fs.mkdirParents (parentPath (splitPath fp)) with ⟨fs1, e1⟩
      cases e1 with
      | some e => simp [create_file, hmk, errEnv, JVal.getField, dictFind] at hsucc
      | none =>
          cases cv <;> simp_all [create_file, hmk, errEnv, JVal.getField, dictFind]
          case str c =>
            rcases hwt : fs1.writeText (splitPath fp) c with ⟨fs2, e2⟩
            cases e2 with
            | some e => simp [create_file, hmk, hwt, errEnv, JVal.getField, dictFind] at hsucc
            | none => simp [create_file, hmk, hwt, JVal.getField, dictFind]
  · intro fs pv hsucc
    cases pv <;> simp_all [exists_file, errEnv, JVal.getField, dictFind]

/-- C10 witness: the claim's comparison at concrete inputs — a
successful delete carries no `data`, while successful read, write,
create and exists envelopes all do. -/
theorem claim10_witness :
    ((delete_file ⟨[(["f"], "x")], []⟩ (.str "f")).2).getField "data" = none ∧
    (∃ d, (read_file ⟨[(["f"], "x")], []⟩ (.str "f") (.str "utf-8")).getField "data"
        = some d) ∧
    (∃ d, ((write_file ⟨[], []⟩ (.str "f") (.str "x") (.str "utf-8")).2).getField "data"
        = some d) ∧
    (∃ d, ((create_file ⟨[], []⟩ (.str "f") (.str "x") (.str "utf-8")).2).getField "data"
        = some d) ∧
    (∃ d, (exists_file ⟨[], []⟩ (.str "f")).getField "data" = some d) :=
  ⟨claim10_thm.1 ⟨[(["f"], "x")], []⟩ (.str "f"),
   claim10_thm.2.1 ⟨[(["f"], "x")], []⟩ (.str "f") (.str "utf-8") rfl,
   claim10_thm.2.2.1 ⟨[], []⟩ (.str "f") (.str "x") (.str "utf-8") rfl,
   claim10_thm.2.2.2.1 ⟨[], []⟩ (.str "f") (.str "x") (.str "utf-8") rfl,
   claim10_thm.2.2.2.2 ⟨[], []⟩ (.str "f") rfl⟩

/-- C3, counterexample to the claim as stated: on the same input the two
actions return different results — the messages differ (`文件已写入` vs
`文件已创建`), so `write` and `create` are not *fully* equivalent. -/
theorem claim3_counterexample :
    (write_file ⟨[], []⟩ (.str "f") (.str "hi") (.str "utf-8")).2
      ≠ (create_file ⟨[], []⟩ (.str "f") (.str "hi") (.str "utf-8")).2 :=
  fun h => absurd (congrArg (fun j => getStrField j "message") h) (by decide)

/-- C3, amended: `write` and `create` are equivalent in everything
except wording — for every path, content and encoding value they
produce the same resulting filesystem, the same success flag and the
same `data` payload (path and content byte length); only the
human-readable `message` / error-prefix strings differ. -/
theorem claim3_thm (fs : FS) (pv cv ev : JVal) :
    (write_file fs pv cv ev).1 = (create_file fs pv cv ev).1 ∧
    ((write_file fs pv cv ev).2).getField "success"
      = ((create_file fs pv cv ev).2).getField "success" ∧
    ((write_file fs pv cv ev).2).getField "data"
      = ((create_file fs pv cv ev).2).getField "data" := by
  cases pv <;> simp [write_file, create_file, errEnv, JVal.getField, dictFind]
  case str fp =>
    rcases hmk : fs.mkdirParents (parentPath (splitPath fp)) with ⟨fs1, e1⟩
    cases e1 with
    | some e => simp [hmk, errEnv, JVal.getField, dictFind]
    | none =>
        cases cv <;> simp [hmk, errEnv, JVal.getField, dictFind]
        case str c =>
          rcases hwt : fs1.writeText (splitPath fp) c with ⟨fs2, e2⟩
          cases e2 <;> simp [hwt, errEnv, JVal.getField, dictFind]

end FileClaims2

section FileClaims3

open FileSkill

theorem memPath_cons_self (ds : List FPath) (q : FPath) :
    memPath (q :: ds) q = true := by
  simp [memPath]

theorem isDir_cons_of (fs : FS) (q r : FPath) (h : fs.isDir r = true) :
    ({ fs with dirs := q :: fs.dirs } : FS).isDir r = true := by
  simp [FS.isDir, memPath] at h ⊢
  rcases h with h | h
  · exact Or.inl h
  · right
    by_cases hqr : q = r <;> simp [hqr, h]

theorem isDir_cons_elim (fs : FS) (q r : FPath)
    (h : ({ fs with dirs := q :: fs.dirs } : FS).isDir r = true) :
    fs.isDir r = true ∨ r = q := by
  by_cases hqr : q = r
  · exact Or.inr hqr.symm
  · left
    simp [FS.isDir, memPath, hqr] at h ⊢
    exact h

theorem isFile_dirs_irrel (fs : FS) (q r : FPath) :
    ({ fs with dirs := q :: fs.dirs } : FS).isFile r = fs.isFile r := by
  simp [FS.isFile]

theorem mkdirSeq_files (qs : List FPath) (fs : FS) :
    ((fs.mkdirSeq qs).1).files = fs.files := by
  induction qs generalizing fs with
  | nil => rfl
  | cons q rest ih =>
      by_cases hf : fs.isFile q = true
      · simp [FS.mkdirSeq, hf]
      · have hf2 : fs.isFile q = false := Bool.eq_false_iff.mpr hf
        by_cases hd : fs.isDir q = true
        · simp [FS.mkdirSeq, hf2, hd, ih]
        · have hd2 : fs.isDir q = false := Bool.eq_false_iff.mpr hd
          simp [FS.mkdirSeq, hf2, hd2, ih]

theorem mkdirSeq_isDir_mono (qs : List FPath) (fs : FS) (r : FPath)
    (h : fs.isDir r = true) : ((fs.mkdirSeq qs).1).isDir r = true := by
  induction qs generalizing fs with
  | nil => exact h
  | cons q rest ih =>
      by_cases hf : fs.isFile q = true
      · simpa [FS.mkdirSeq, hf] using h
      · have hf2 : fs.isFile q = false := Bool.eq_false_iff.mpr hf
        by_cases hd : fs.isDir q = true
        · simpa [FS.mkdirSeq, hf2, hd] using ih fs h
        · have hd2 : fs.isDir q = false := Bool.eq_false_iff.mpr hd
          simpa [FS.mkdirSeq, hf2, hd2] using ih _ (isDir_cons_of fs q r h)

theorem mkdirSeq_err (qs : List FPath) (fs : FS)
    (h : ∀ q ∈ qs, fs.isFile q = false) : (fs.mkdirSeq qs).2 = none := by
  induction qs generalizing fs with
  | nil => rfl
  | cons q rest ih =>
      have hq := h q (List.mem_cons_self q rest)
      have hrest : ∀ x ∈ rest, fs.isFile x = false :=
        fun x hx => h x (List.mem_cons_of_mem q hx)
      by_cases hd : fs.isDir q = true
      · simpa [FS.mkdirSeq, hq, hd] using ih fs hrest
      · have hd2 : fs.isDir q = false := Bool.eq_false_iff.mpr hd
        have hrest2 : ∀ x ∈ rest,
            ({ fs with dirs := q :: fs.dirs } : FS).isFile x = false := by
          intro x hx
          simpa [FS.isFile] using hrest x hx
        simpa [FS.mkdirSeq, hq, hd2] using ih _ hrest2

theorem mkdirSeq_creates (qs : List FPath) (fs : FS)
    (h : ∀ q ∈ qs, fs.isFile q = false) :
    ∀ x ∈ qs, ((fs.mkdirSeq qs).1).isDir x = true := by
  induction qs generalizing fs with
  | nil => intro x hx; cases hx
  | cons q rest ih =>
      have hq := h q (List.mem_cons_self q rest)
      have hrest : ∀ y ∈ rest, fs.isFile y = false :=
        fun y hy => h y (List.mem_cons_of_mem q hy)
      intro x hx
      rcases List.mem_cons.mp hx with hx | hx
      · subst hx
        by_cases hd : fs.isDir x = true
        · simpa [FS.mkdirSeq, hq, hd] using mkdirSeq_isDir_mono rest fs x hd
        · have hd2 : fs.isDir x = false := Bool.eq_false_iff.mpr hd
          have hx2 : ({ fs with dirs := x :: fs.dirs } : FS).isDir x = true := by
            simp [FS.isDir, memPath]
          simpa [FS.mkdirSeq, hq, hd2] using mkdirSeq_isDir_mono rest _ x hx2
      · by_cases hd : fs.isDir q = true
        · simpa [FS.mkdirSeq, hq, hd] using ih fs hrest x hx
        · have hd2 : fs.isDir q = false := Bool.eq_false_iff.mpr hd
          have hrest2 : ∀ y ∈ rest,
              ({ fs with dirs := q :: fs.dirs } : FS).isFile y = false := by
            intro y hy
            simpa [FS.isFile] using hrest y hy
          simpa [FS.mkdirSeq, hq, hd2] using ih _ hrest2 x hx

theorem mkdirSeq_isDir_bound (qs : List FPath) (fs : FS) (r : FPath)
    (h : ((fs.mkdirSeq qs).1).isDir r = true) : fs.isDir r = true ∨ r ∈ qs := by
  induction qs generalizing fs with
  | nil => exact Or.inl h
  | cons q rest ih =>
      by_cases hf : fs.isFile q = true
      · exact Or.inl (by simpa [FS.mkdirSeq, hf] using h)
      · have hf2 : fs.isFile q = false := Bool.eq_false_iff.mpr hf
        by_cases hd : fs.isDir q = true
        · rcases ih fs (by simpa [FS.mkdirSeq, hf2, hd] using h) with h2 | h2
          · exact Or.inl h2
          · exact Or.inr (List.mem_cons_of_mem q h2)
        · have hd2 : fs.isDir q = false := Bool.eq_false_iff.mpr hd
          rcases ih _ (by simpa [FS.mkdirSeq, hf2, hd2] using h) with h2 | h2
          · rcases isDir_cons_elim fs q r h2 with h3 | h3
            · exact Or.inl h3
            · exact Or.inr (by simp [h3])
          · exact Or.inr (List.mem_cons_of_mem q h2)

theorem self_mem_pathPrefixes (p : FPath) : p ∈ pathPrefixes p := by
  simp only [pathPrefixes, List.mem_map]
  exact ⟨p.length, by simp, List.take_length p⟩

theorem length_le_of_mem_pathPrefixes {q p : FPath} (h : q ∈ pathPrefixes p) :
    q.length ≤ p.length := by
  simp only [pathPrefixes, List.mem_map, List.mem_range] at h
  obtain ⟨i, hi, rfl⟩ := h
  simp [List.length_take]

/-- C4: for the file skill, `write` on a path whose parent directory
does not yet exist — and which is otherwise unobstructed: no prefix of
the missing parent chain is a regular file, and the path itself is not a
directory — creates the directory tree and the file, and a following
`read` with the same encoding returns exactly the content written. -/
theorem claim4_thm (fs : FS) (fp c : String) (enc : JVal)
    (hparent : fs.isDir (parentPath (splitPath fp)) = false)
    (hnof : ∀ q ∈ pathPrefixes (parentPath (splitPath fp)), fs.isFile q = false)
    (hnd : fs.isDir (splitPath fp) = false) :
    ∃ fs2 : FS,
      write_file fs (.str fp) (.str c) enc
        = (fs2, .obj [("success", .bool true),
                      ("data", .obj [("path", .str fp),
                                     ("size", .num (encodeLen c enc))]),
                      ("message", .str ("文件已写入: " ++ fp))]) ∧
      fs2.isDir (parentPath (splitPath fp)) = true ∧
      fs2.isFile (splitPath fp) = true ∧
      (read_file fs2 (.str fp) enc).getField "success" = some (.bool true) ∧
      (read_file fs2 (.str fp) enc).getField "data"
        = some (.obj [("content", .str c), ("path", .str fp),
                      ("size", .num c.utf8ByteSize)]) ∧
      (read_file fs2 (.str fp) enc).getField "message" = some (.str c) := by
  set p := splitPath fp with hp
  set par := parentPath p with hpar
  rcases hmk : fs.mkdirParents par with ⟨fs1, e1⟩
  have he1 : e1 = none := by
    have h0 := mkdirSeq_err (pathPrefixes par) fs hnof
    rw [FS.mkdirParents] at hmk
    rw [hmk] at h0
    exact h0
  subst he1
  have hfs1 : fs1 = (fs.mkdirSeq (pathPrefixes par)).1 := by
    rw [FS.mkdirParents] at hmk
    rw [hmk]
  have hfiles1 : fs1.files = fs.files := by
    rw [hfs1]
    exact mkdirSeq_files _ fs
  have hdir1 : fs1.isDir par = true := by
    rw [hfs1]
    exact mkdirSeq_creates _ fs hnof par (self_mem_pathPrefixes par)
  have hpne : p ≠ [] := by
    intro h0
    have h1 : fs.isDir par = true := by
      rw [hpar, h0]
      simp [parentPath, FS.isDir]
    rw [h1] at hparent
    cases hparent
  have hplen : par.length = p.length - 1 := by
    rw [hpar, parentPath]
    exact List.length_dropLast p
  have hnd1 : fs1.isDir p = false := by
    cases hb : fs1.isDir p with
    | false => rfl
    | true =>
        exfalso
        rw [hfs1] at hb
        rcases mkdirSeq_isDir_bound _ fs p hb with h2 | h2
        · rw [h2] at hnd
          cases hnd
        · have hle := length_le_of_mem_pathPrefixes h2
          have hlen0 : p.length ≠ 0 := by
            intro h0
            exact hpne (List.length_eq_zero.mp h0)
          omega
  have hwt : fs1.writeText p c
      = ({ fs1 with files := (p, c) :: removeFile fs1.files p }, none) := by
    rw [FS.writeText, hnd1, ← hpar]
    simp [hdir1]
  have hwf : write_file fs (.str fp) (.str c) enc
      = ({ fs1 with files := (p, c) :: removeFile fs1.files p },
         .obj [("success", .bool true),
               ("data", .obj [("path", .str fp), ("size", .num (encodeLen c enc))]),
               ("message", .str ("文件已写入: " ++ fp))]) := by
    simp [write_file, ← hp, ← hpar, hmk, hwt]
  have hf2 : ({ fs1 with files := (p, c) :: removeFile fs1.files p } : FS).isFile p
      = true := by
    simp [FS.isFile, findFile]
  have hd2 : ({ fs1 with files := (p, c) :: removeFile fs1.files p } : FS).isDir p
      = false := by
    simpa [FS.isDir] using hnd1
  have hpe2 : ({ fs1 with files := (p, c) :: removeFile fs1.files p } : FS).pexists p
      = true := by
    simp [FS.pexists, hf2]
  have hread : read_file { fs1 with files := (p, c) :: removeFile fs1.files p }
      (.str fp) enc
      = .obj [("success", .bool true),
              ("data", .obj [("content", .str c), ("path", .str fp),
                             ("size", .num c.utf8ByteSize)]),
              ("message", .str c)] := by
    simp [read_file, ← hp, hpe2, FS.readText, hd2, findFile]
  refine ⟨{ fs1 with files := (p, c) :: removeFile fs1.files p }, hwf, ?_, hf2, ?_, ?_, ?_⟩
  · simpa [FS.isDir] using hdir1
  · simp [hread, JVal.getField, dictFind]
  · simp [hread, JVal.getField, dictFind]
  · simp [hread, JVal.getField, dictFind]

/-- C4 witness: writing `hi` to `a/b` on the empty filesystem (parent
directory `a` absent) and reading it back. -/
theorem claim4_witness :
    ∃ fs2 : FS,
      write_file ⟨[], []⟩ (.str "a/b") (.str "hi") (.str "utf-8")
        = (fs2, .obj [("success", .bool true),
                      ("data", .obj [("path", .str "a/b"),
                                     ("size", .num (encodeLen "hi" (.str "utf-8")))]),
                      ("message", .str ("文件已写入: " ++ "a/b"))]) ∧
      fs2.isDir (parentPath (splitPath "a/b")) = true ∧
      fs2.isFile (splitPath "a/b") = true ∧
      (read_file fs2 (.str "a/b") (.str "utf-8")).getField "success" = some (.bool true) ∧
      (read_file fs2 (.str "a/b") (.str "utf-8")).getField "data"
        = some (.obj [("content", .str "hi"), ("path", .str "a/b"),
                      ("size", .num "hi".utf8ByteSize)]) ∧
      (read_file fs2 (.str "a/b") (.str "utf-8")).getField "message" = some (.str "hi") :=
  claim4_thm ⟨[], []⟩ "a/b" "hi" (.str "utf-8") (by decide) (by decide) (by decide)

end FileClaims3
